import Mathlib

/-!
Verification development for the MySQL MCP gateway (`src/server.py`).

The Python source is shallowly embedded: each gateway operation becomes a
pure Lean function over an explicit database oracle.  The database engine and
its driver are opaque collaborators, so they are modelled as record fields of
oracle structures; every statement the operation would send to the engine is
recorded in an explicit trace so that claims about "which SQL was issued" can
be stated.  Python machine floats produced by SQL aggregates are idealised as
rationals; Python `None` becomes `Option.none`; a raised driver exception
becomes `Except.error` carrying the driver's message text.
-/

namespace MySQLMCP

/-- Python `str.lower()` (the inputs lowered by the code are ASCII SQL
keywords and type names, so ASCII case mapping is the relevant behaviour). -/
def pyLower (s : String) : String :=
  String.mk (s.data.map Char.toLower)

/-- Python `str.strip()`: remove leading and trailing whitespace. -/
def pyStrip (s : String) : String :=
  String.mk (((s.data.dropWhile Char.isWhitespace).reverse.dropWhile Char.isWhitespace).reverse)

/-- Python `str.startswith(pre)`. -/
def pyStartsWith (s pre : String) : Bool :=
  pre.data.isPrefixOf s.data

/-- Helper for the substring test: `containsAux needle s` holds when
`needle` occurs as a contiguous run inside `s`. -/
def containsAux (needle : List Char) : List Char → Bool
  | [] => needle.isEmpty
  | c :: cs => needle.isPrefixOf (c :: cs) || containsAux needle cs

/-- Python's `needle in haystack` substring test, used by `query_data`
(`"limit" not in sql.lower()`) and by the column-type dispatch of
`table_statistics` (`any(numeric in col_type.lower() ...)`). -/
def strContains (haystack needle : String) : Bool :=
  containsAux needle.data haystack.data

/-- Python `", ".join(parts)`-style joining with a separator. -/
def joinSep (sep : String) : List String → String
  | [] => ""
  | [x] => x
  | x :: y :: rest => x ++ sep ++ joinSep sep (y :: rest)

/-- Character-level expansion behind `str.replace("|", "\\|")`: the column
delimiter becomes backslash-delimiter, every other character is kept. -/
def escapeChars : List Char → List Char
  | [] => []
  | c :: cs => (if c = '|' then ['\\', '|'] else [c]) ++ escapeChars cs

/-- Python `str.replace("|", "\\|")` as applied at `server.py:217`: every
occurrence of the column delimiter `|` becomes `\|`. -/
def escapeDelim (s : String) : String :=
  String.mk (escapeChars s.data)

/-- MySQL `LIKE` pattern matching over characters: `%` matches any sequence,
`_` matches exactly one character, backslash escapes the next character.
This is the semantics of the `SHOW TABLES LIKE %s` existence check at
`server.py:240` (the driver parameterisation quotes the value as a string
literal, so wildcard characters inside the value keep their meaning). -/
def likeMatch : List Char → List Char → Bool
  | [], s => s.isEmpty
  | '%' :: ps, s =>
    likeMatch ps s ||
      (match s with
       | [] => false
       | _ :: cs => likeMatch ('%' :: ps) cs)
  | '_' :: ps, s =>
    (match s with
     | [] => false
     | _ :: cs => likeMatch ps cs)
  | '\\' :: c :: ps, s =>
    (match s with
     | [] => false
     | d :: cs => c = d && likeMatch ps cs)
  | c :: ps, s =>
    (match s with
     | [] => false
     | d :: cs => c = d && likeMatch ps cs)
termination_by p s => (p.length, s.length)

/-- String-level wrapper: `sqlLike pat s` holds when `s` matches the SQL
LIKE pattern `pat`. -/
def sqlLike (pat s : String) : Bool :=
  likeMatch pat.data s.data

/-- A JSON value, standing for the Python `dict`/`list` cell values that
`query_data` serialises with `json.dumps` (`server.py:216`). -/
inductive Json where
  | null
  | bool (b : Bool)
  | num (n : Int)
  | str (s : String)
  | arr (elems : List Json)
  | obj (fields : List (String × Json))

/-- Four lowercase hex digits, as in Python's `\uXXXX` JSON escapes. -/
def hex4 (n : Nat) : String :=
  let ds := Nat.toDigits 16 (n % 65536)
  "".pushn '0' (4 - ds.length) ++ String.mk ds

/-- Escaping of one character inside a JSON string literal, following
Python's `json.dumps` defaults (`ensure_ascii=True`). -/
def jsonEscChar (c : Char) : String :=
  if c = '"' then "\\\""
  else if c = '\\' then "\\\\"
  else if c = '\n' then "\\n"
  else if c = '\t' then "\\t"
  else if c = '\r' then "\\r"
  else if c.toNat < 32 then "\\u" ++ hex4 c.toNat
  else if c.toNat < 127 then String.singleton c
  else if c.toNat < 65536 then "\\u" ++ hex4 c.toNat
  else
    let v := c.toNat - 65536
    "\\u" ++ hex4 (55296 + v / 1024) ++ "\\u" ++ hex4 (56320 + v % 1024)

/-- A JSON string literal with its quotes, as `json.dumps` renders it. -/
def jsonQuote (s : String) : String :=
  "\"" ++ String.join (s.data.map jsonEscChar) ++ "\""

mutual

/-- Python `json.dumps` with default separators `", "` and `": "`. -/
def jsonDumps : Json → String
  | .null => "null"
  | .bool true => "true"
  | .bool false => "false"
  | .num n => toString n
  | .str s => jsonQuote s
  | .arr elems => "[" ++ jsonDumpsList elems ++ "]"
  | .obj fields => "\x7b" ++ jsonDumpsObj fields ++ "\x7d"

/-- Comma-joined serialisation of a JSON array body. -/
def jsonDumpsList : List Json → String
  | [] => ""
  | [x] => jsonDumps x
  | x :: y :: rest => jsonDumps x ++ ", " ++ jsonDumpsList (y :: rest)

/-- Comma-joined serialisation of a JSON object body. -/
def jsonDumpsObj : List (String × Json) → String
  | [] => ""
  | [(k, v)] => jsonQuote k ++ ": " ++ jsonDumps v
  | (k, v) :: kv :: rest => jsonQuote k ++ ": " ++ jsonDumps v ++ ", " ++ jsonDumpsObj (kv :: rest)

end

/-- One cell of a `DictCursor` result row.  The constructors cover the value
kinds the rendering code at `server.py:211-217` distinguishes: SQL NULL
(Python `None`), structured `dict`/`list` values, and plain values whose
default textual representation is taken (strings and integers here). -/
inductive Cell where
  | null
  | str (s : String)
  | int (n : Int)
  | structured (j : Json)

/-- One `DictCursor` row: an ordered mapping from column name to cell.
All rows of one result set share the same keys. -/
abbrev Row := List (String × Cell)

/-- Lookup `row[col]` on a `DictCursor` row.  Rows of a single result set
always contain every column key, so the default is never reached on real
data. -/
def getCell (row : Row) (c : String) : Cell :=
  (row.lookup c).getD Cell.null

/-- Formatting of one cell at `server.py:211-217`: `None` becomes the text
`NULL`, `dict`/`list` values are serialised with `json.dumps`, everything
else is `str(...)`-rendered; then every `|` is escaped as `\|`. -/
def formatCell (cell : Cell) : String :=
  let s :=
    match cell with
    | Cell.null => "NULL"
    | Cell.structured j => jsonDumps j
    | Cell.str s => s
    | Cell.int n => toString n
  escapeDelim s

/-- The markdown table built at `server.py:198-218` from a non-empty result
set: header row from the first row's keys, separator row, one line per row. -/
def renderTable (results : List Row) : String :=
  let columns := (results.headD []).map Prod.fst
  let table := "| " ++ joinSep " | " columns ++ " |\n"
  let table := table ++ "| " ++ joinSep " | " (columns.map fun _ => "---") ++ " |\n"
  results.foldl
    (fun t row =>
      t ++ "| " ++ joinSep " | " (columns.map fun c => formatCell (getCell row c)) ++ " |\n")
    table

/-- The opaque SQL executor behind `query_data`: one pooled connection's
`cursor.execute`/`fetchall` on a raw SQL string.  An `Except.error` is a
driver exception carrying its message text. -/
structure Db where
  exec : String → Except String (List Row)

/-- What one `query_data` call did: the text returned to the caller, the
statements actually sent to the database, and whether a pooled connection
was acquired at all. -/
structure QueryOutcome where
  response : String
  executed : List String
  poolAcquired : Bool
deriving DecidableEq

/-- The statement normalisation of `query_data` (`server.py:178-184`): the
input is whitespace-trimmed, and ` LIMIT <n>` is appended exactly when the
lowercased text does not contain `limit` and a bound was supplied. -/
def normalizeSql (sqlIn : String) (limit : Option Int) : String :=
  let sql := pyStrip sqlIn
  match limit with
  | some n => if strContains (pyLower sql) "limit" then sql else sql ++ " LIMIT " ++ toString n
  | none => sql

/-- The `query_data` tool (`server.py:168-224`).  The guard rejects any
input whose trimmed, lowercased text does not start with `select` before a
connection is acquired; afterwards the normalised statement is executed and
the result rendered (the `isinstance(results, list)` check at line 198 is
always true for a non-empty `fetchall` result, so its `else` branch is
unreachable and not modelled). -/
def query_data (db : Db) (sqlIn : String) (limit : Option Int) : QueryOutcome :=
  let sql := pyStrip sqlIn
  if pyStartsWith (pyLower sql) "select" = false then
    { response := "错误: 只支持SELECT查询以保证数据库安全"
      executed := []
      poolAcquired := false }
  else
    let sql := normalizeSql sqlIn limit
    match db.exec sql with
    | Except.error e =>
      { response := "查询执行错误: " ++ e, executed := [sql], poolAcquired := true }
    | Except.ok results =>
      if results.isEmpty then
        { response := "查询执行成功，但没有返回数据。", executed := [sql], poolAcquired := true }
      else
        { response := "查询结果 (" ++ toString results.length ++ " 行):\n\n" ++ renderTable results
          executed := [sql]
          poolAcquired := true }

/-! ## Statistics engine (`table_statistics`, `server.py:227-339`) -/

/-- Python `round(x, 2)` on an exact value: round-half-even at two decimal
places.  SQL aggregates (machine floats in Python) are idealised as exact
rationals. -/
def pyRound2 (q : ℚ) : ℚ :=
  let s := q * 100
  let r : ℤ :=
    if s - (⌊s⌋ : ℚ) < 1 / 2 then ⌊s⌋
    else if 1 / 2 < s - (⌊s⌋ : ℚ) then ⌊s⌋ + 1
    else if ⌊s⌋ % 2 = 0 then ⌊s⌋ else ⌊s⌋ + 1
  (r : ℚ) / 100

/-- The `round(float(x), 2) if x else None` pattern at `server.py:274-275`
and `server.py:289`: Python truthiness makes both `None` and an exact `0`
aggregate fall to the `else`, yielding `None`. -/
def aggField : Option ℚ → Option ℚ
  | none => none
  | some v => if v = 0 then none else some (pyRound2 v)

/-- The numeric type tokens of the dispatch at `server.py:259`. -/
def numericTokens : List String := ["int", "decimal", "float", "double"]

/-- The text type tokens of the dispatch at `server.py:277`. -/
def textTokens : List String := ["char", "text", "varchar"]

/-- Statistical category of a column, decided from its declared type. -/
inductive ColCategory where
  | numeric
  | text
  | other
deriving DecidableEq

/-- The `if/elif/else` type dispatch of `table_statistics`
(`server.py:259,277,291`): numeric substring tokens are tested first, then
text tokens, anything else is `other`. -/
def classifyColType (colType : String) : ColCategory :=
  if numericTokens.any (fun tok => strContains (pyLower colType) tok) then ColCategory.numeric
  else if textTokens.any (fun tok => strContains (pyLower colType) tok) then ColCategory.text
  else ColCategory.other

/-- One per-column statistics entry appended to `stats`
(`server.py:269-302`).  `min`/`max` are reported raw; `avg`/`std` and
`avg_length` pass through `aggField`; `unique_values` comes from
`COUNT(DISTINCT ...)`, which is never NULL. -/
inductive ColStat where
  | numeric (column type : String) (min max avg std : Option ℚ)
  | text (column type : String) (uniqueValues : ℕ) (avgLength : Option ℚ)
  | other (column type : String) (uniqueValues : ℕ)
deriving DecidableEq

/-- A statement `table_statistics` sends to the database.  Each constructor
stands for the literal SQL text built at the given line, with the
interpolated caller strings as arguments:
`showTablesLike pat` is `SHOW TABLES LIKE %s` with parameter `pat` (line 240);
`countRows t` is ``SELECT COUNT(*) as count FROM `t` `` (line 245);
`describeTable t` is ``DESCRIBE `t` `` (line 249);
`numAggQuery c t` is the MIN/MAX/AVG/STD aggregate over column `c` of `t`
(lines 260-267); `textAggQuery c t` is the COUNT(DISTINCT)/AVG(LENGTH)
aggregate (lines 278-283); `distinctQuery c t` is the COUNT(DISTINCT)
query (lines 293-296). -/
inductive Sql where
  | showTablesLike (pat : String)
  | countRows (table : String)
  | describeTable (table : String)
  | numAggQuery (column table : String)
  | textAggQuery (column table : String)
  | distinctQuery (column table : String)
deriving DecidableEq

/-- The opaque database behind `table_statistics`: the catalog (`SHOW
TABLES` order) plus one typed oracle per query shape, keyed by the literal
interpolated strings.  An `Except.error` is a driver exception with its
message text; NULL aggregate results are `none`. -/
structure StatDb where
  tables : List String
  count : String → Except String ℕ
  describeTable : String → Except String (List (String × String))
  numAgg : String → String → Except String (Option ℚ × Option ℚ × Option ℚ × Option ℚ)
  textAgg : String → String → Except String (ℕ × Option ℚ)
  distinct : String → String → Except String ℕ

/-- Outcome of one `table_statistics` call.  `notFound` is the early
`return` at `server.py:242`; `ok` is the success path (row count and the
`stats` list — the markdown layout of lines 304-337 is presentation and
carries no further data); `failure` is the `except` branch at line 339. -/
inductive TSResult where
  | notFound (msg : String)
  | ok (count : ℕ) (stats : List ColStat)
  | failure (msg : String)
deriving DecidableEq

/-- The body of one iteration of the per-column loop (`server.py:254-302`):
classify the declared type, issue the one statistic query for that
category, and build the stats entry.  Returns the driver error when the
query fails, plus the query issued. -/
def colStat (db : StatDb) (tableName : String) (col : String × String) :
    Except String ColStat × List Sql :=
  let colName := col.1
  let colType := col.2
  match classifyColType colType with
  | ColCategory.numeric =>
    (match db.numAgg tableName colName with
     | Except.error e => (Except.error e, [Sql.numAggQuery colName tableName])
     | Except.ok (mn, mx, av, sd) =>
       (Except.ok (ColStat.numeric colName colType mn mx (aggField av) (aggField sd)),
        [Sql.numAggQuery colName tableName]))
  | ColCategory.text =>
    (match db.textAgg tableName colName with
     | Except.error e => (Except.error e, [Sql.textAggQuery colName tableName])
     | Except.ok (u, al) =>
       (Except.ok (ColStat.text colName colType u (aggField al)),
        [Sql.textAggQuery colName tableName]))
  | ColCategory.other =>
    (match db.distinct tableName colName with
     | Except.error e => (Except.error e, [Sql.distinctQuery colName tableName])
     | Except.ok u =>
       (Except.ok (ColStat.other colName colType u), [Sql.distinctQuery colName tableName]))

/-- The per-column loop of `table_statistics`: columns are processed in
`DESCRIBE` order; the first raised driver exception aborts the loop (and is
caught by the enclosing `except`). -/
def statsLoop (db : StatDb) (tableName : String) :
    List (String × String) → Except String (List ColStat) × List Sql
  | [] => (Except.ok [], [])
  | c :: cs =>
    match colStat db tableName c with
    | (Except.error e, qs) => (Except.error e, qs)
    | (Except.ok s, qs) =>
      match statsLoop db tableName cs with
      | (Except.error e, qs') => (Except.error e, qs ++ qs')
      | (Except.ok ss, qs') => (Except.ok (s :: ss), qs ++ qs')

/-- The `table_statistics` tool (`server.py:227-339`), with the trace of
every statement sent to the database.  The existence check is `SHOW TABLES
LIKE %s` with the caller string as the pattern; when it returns no row the
function returns the not-found message without issuing anything else.  All
later statements interpolate the caller-supplied `table_name` literally.
Any driver exception is caught and converted to the failure text. -/
def table_statistics (db : StatDb) (tableName : String) : TSResult × List Sql :=
  match db.tables.find? (fun t => sqlLike tableName t) with
  | none =>
    (TSResult.notFound ("错误: 表 '" ++ tableName ++ "' 不存在"), [Sql.showTablesLike tableName])
  | some _ =>
    match db.count tableName with
    | Except.error e =>
      (TSResult.failure ("获取统计信息错误: " ++ e),
       [Sql.showTablesLike tableName, Sql.countRows tableName])
    | Except.ok n =>
      match db.describeTable tableName with
      | Except.error e =>
        (TSResult.failure ("获取统计信息错误: " ++ e),
         [Sql.showTablesLike tableName, Sql.countRows tableName, Sql.describeTable tableName])
      | Except.ok cols =>
        match statsLoop db tableName cols with
        | (Except.error e, qs) =>
          (TSResult.failure ("获取统计信息错误: " ++ e),
           [Sql.showTablesLike tableName, Sql.countRows tableName, Sql.describeTable tableName]
             ++ qs)
        | (Except.ok stats, qs) =>
          (TSResult.ok n stats,
           [Sql.showTablesLike tableName, Sql.countRows tableName, Sql.describeTable tableName]
             ++ qs)

/-! ## Schema reflection (`get_table_schema`, `server.py:71-96`, and
`get_relationships`, `server.py:120-165`) -/

/-- One `DESCRIBE` row: Field, Type, Null, Key, Default (may be SQL NULL),
Extra. -/
structure ColRow where
  field : String
  type : String
  nullable : String
  key : String
  default : Option String
  extra : String

/-- The opaque database behind `get_table_schema`: the catalog plus the
`DESCRIBE` and `SHOW CREATE TABLE` responses.  The engine raises a
missing-table error for any name not in the catalog (modelling MySQL error
1146); `get_table_schema` itself has no `try/except`, so that exception
propagates out of the operation. -/
structure SchemaDb where
  tables : List String
  describeTable : String → Except String (List ColRow)
  showCreate : String → Except String (String × String)
  describe_absent : ∀ t, t ∉ tables → ∃ e, describeTable t = Except.error e

/-- One line of the column table at `server.py:92`.  `col[4] if col[4] else
'NULL'` is Python truthiness: both SQL NULL and an empty-string default
print as `NULL`. -/
def colLine (col : ColRow) : String :=
  let defaultText :=
    match col.default with
    | none => "NULL"
    | some d => if d = "" then "NULL" else d
  "| " ++ col.field ++ " | " ++ col.type ++ " | " ++ col.nullable ++ " | " ++ col.key ++
    " | " ++ defaultText ++ " | " ++ col.extra ++ " |\n"

/-- The `schema://table/{table_name}` resource (`server.py:71-96`):
`DESCRIBE` then `SHOW CREATE TABLE`, rendered as markdown.  There is no
exception handler, so a driver error at either statement is the result of
the whole operation and no partial text is produced. -/
def get_table_schema (db : SchemaDb) (tableName : String) : Except String String := do
  let columns ← db.describeTable tableName
  let createTable ← db.showCreate tableName
  let header :=
    "# 表结构: " ++ tableName ++ "\n\n" ++
    "## 列信息\n\n" ++
    "| 字段名 | 类型 | 可为空 | 键 | 默认值 | 额外信息 |\n" ++
    "| ------ | ---- | ------ | -- | ------ | -------- |\n"
  let body := String.join (columns.map colLine)
  pure (header ++ body ++ "\n## 创建语句\n\n```sql\n" ++ createTable.2 ++ "\n```\n")

/-- One row of `INFORMATION_SCHEMA.KEY_COLUMN_USAGE` as selected at
`server.py:136-148`, with the referenced schema kept so the `WHERE` filter
can be expressed. -/
structure FKRow where
  tableName : String
  columnName : String
  constraintName : String
  referencedTableSchema : String
  referencedTableName : String
  referencedColumnName : String

/-- The opaque database behind `get_relationships`: the catalog, the full
key-column-usage relation, and the configured database name
(`DB_CONFIG['db']`). -/
structure RelDb where
  tables : List String
  keyColumnUsage : List FKRow
  dbName : String

/-- The per-table catalog query at `server.py:136-148`:
`WHERE REFERENCED_TABLE_SCHEMA = '<db>' AND TABLE_NAME = '<t>'`. -/
def fkQuery (db : RelDb) (t : String) : List FKRow :=
  db.keyColumnUsage.filter
    (fun r => r.referencedTableSchema = db.dbName && r.tableName = t)

/-- The markdown section for one table with at least one foreign key
(`server.py:153-160`). -/
def relSection (t : String) (relations : List FKRow) : String :=
  "## 表 `" ++ t ++ "` 的外键关系\n\n" ++
  "| 列名 | 约束名 | 引用表 | 引用列 |\n" ++
  "| ---- | ------ | ------ | ------ |\n" ++
  String.join
    (relations.map fun r =>
      "| " ++ r.columnName ++ " | " ++ r.constraintName ++ " | " ++ r.referencedTableName ++
        " | " ++ r.referencedColumnName ++ " |\n") ++
  "\n"

/-- The `schema://relationships` resource (`server.py:120-165`): for every
table, the filtered catalog rows; tables with no rows contribute nothing;
when no table contributed, the fixed "no relationships found" line is
appended.  The operation returns text in every case. -/
def get_relationships (db : RelDb) : String :=
  let start : String × Bool := ("# 数据库关系\n\n", false)
  let folded :=
    db.tables.foldl
      (fun acc t =>
        let relations := fkQuery db t
        if relations.isEmpty then acc
        else (acc.1 ++ relSection t relations, true))
      start
  if folded.2 then folded.1 else folded.1 ++ "未找到表之间的关系。\n"

/-! ## Concrete database oracles used by witnesses and counterexamples -/

/-- A database whose executor is never reached (claim C1). -/
def dbC1 : Db :=
  { exec := fun _ => Except.error "unused" }

/-- A database that fails every statement (claim C2: the executed statement
list does not depend on the engine's answer). -/
def dbC2 : Db :=
  { exec := fun _ => Except.error "unused" }

/-- A one-table catalog whose engine raises MySQL error 1146 on `DESCRIBE`
of any absent name (claim C3). -/
def schemaDbC3 : SchemaDb where
  tables := ["users"]
  describeTable := fun t =>
    if t = "users" then Except.ok [⟨"id", "int(11)", "NO", "PRI", none, "auto_increment"⟩]
    else Except.error ("(1146, \"Table 'testdb." ++ t ++ "' doesn't exist\")")
  showCreate := fun t =>
    if t = "users" then Except.ok ("users", "CREATE TABLE users (id int(11))")
    else Except.error ("(1146, \"Table 'testdb." ++ t ++ "' doesn't exist\")")
  describe_absent := by
    intro t ht
    have hne : ¬ t = "users" := by simpa using ht
    exact ⟨"(1146, \"Table 'testdb." ++ t ++ "' doesn't exist\")", by simp [hne]⟩

/-- A table holding the single row `{v: 0}`: every numeric aggregate of
column `v` is exactly zero and non-null (claim C4). -/
def statDbC4 : StatDb :=
  { tables := ["t"]
    count := fun _ => Except.ok 1
    describeTable := fun _ => Except.ok [("v", "int(11)")]
    numAgg := fun _ _ => Except.ok (some 0, some 0, some 0, some 0)
    textAgg := fun _ _ => Except.error "unused"
    distinct := fun _ _ => Except.error "unused"
    }

/-- A catalog holding only `orders`, whose engine raises MySQL error 1146
for any statement naming another table (claims C5). -/
def statDbC5 : StatDb :=
  { tables := ["orders"]
    count := fun t =>
      if t = "orders" then Except.ok 7
      else Except.error ("(1146, \"Table 'testdb." ++ t ++ "' doesn't exist\")")
    describeTable := fun _ => Except.error "unused"
    numAgg := fun _ _ => Except.error "unused"
    textAgg := fun _ _ => Except.error "unused"
    distinct := fun _ _ => Except.error "unused"
    }

/-- A database that fails every query statement (claim C6). -/
def dbC6 : Db :=
  { exec := fun _ => Except.error "boom" }

/-- A one-column table whose per-column aggregate query raises (claim C6). -/
def statDbC6 : StatDb :=
  { tables := ["t"]
    count := fun _ => Except.ok 1
    describeTable := fun _ => Except.ok [("v", "int")]
    numAgg := fun _ _ => Except.error "colboom"
    textAgg := fun _ _ => Except.error "unused"
    distinct := fun _ _ => Except.error "unused"
    }

/-- A database returning an empty result set for every query (claim C7). -/
def dbC7 : Db :=
  { exec := fun _ => Except.ok [] }

/-- A catalog with one genuine foreign key from `orders.user_id` to
`users.id` inside the configured schema (claim C8). -/
def relDbC8 : RelDb :=
  { tables := ["orders"]
    keyColumnUsage := [⟨"orders", "user_id", "fk_user", "testdb", "users", "id"⟩]
    dbName := "testdb" }

/-- A catalog whose only key-column-usage row references a foreign schema,
so the configured database has zero foreign-key edges (claim C8). -/
def relDbC8empty : RelDb :=
  { tables := ["logs"]
    keyColumnUsage := [⟨"logs", "ref", "fk_ext", "otherdb", "ext", "id"⟩]
    dbName := "testdb" }

/-- A catalog holding only `users`, whose engine raises MySQL error 1146
for any statement naming another table (claim C9). -/
def statDbC9 : StatDb :=
  { tables := ["users"]
    count := fun t =>
      if t = "users" then Except.ok 3
      else Except.error ("(1146, \"Table 'testdb." ++ t ++ "' doesn't exist\")")
    describeTable := fun _ => Except.error "unused"
    numAgg := fun _ _ => Except.error "unused"
    textAgg := fun _ _ => Except.error "unused"
    distinct := fun _ _ => Except.error "unused"
    }

/-! ## Helper lemmas -/

/-- Once the guard passes, `query_data` sends exactly the normalised
statement, whatever the engine answers. -/
theorem query_data_executed (db : Db) (sqlIn : String) (limit : Option Int)
    (h : pyStartsWith (pyLower (pyStrip sqlIn)) "select" = true) :
    (query_data db sqlIn limit).executed = [normalizeSql sqlIn limit] := by
  unfold query_data
  simp only [h, Bool.true_eq_false, if_false]
  cases db.exec (normalizeSql sqlIn limit) with
  | error e => rfl
  | ok results => by_cases hr : results.isEmpty <;> simp [hr]

/-- If some column of the list has a failing statistic query, the
per-column loop aborts with a driver error. -/
theorem statsLoop_error (db : StatDb) (tableName : String)
    (cols : List (String × String)) (c : String × String) (e : String)
    (hc : c ∈ cols) (he : (colStat db tableName c).1 = Except.error e) :
    ∃ e' qs, statsLoop db tableName cols = (Except.error e', qs) := by
  induction cols with
  | nil => cases hc
  | cons c0 cs ih =>
    cases h0 : colStat db tableName c0 with
    | mk r0 q0 =>
      cases r0 with
      | error e0 => exact ⟨e0, q0, by simp [statsLoop, h0]⟩
      | ok s0 =>
        rcases List.mem_cons.mp hc with hceq | hcs
        · subst hceq
          rw [h0] at he
          simp at he
        · obtain ⟨e', qs, hloop⟩ := ih hcs
          exact ⟨e', q0 ++ qs, by simp [statsLoop, h0, hloop]⟩

/-- Every delimiter character in the escaped text is immediately preceded
by a backslash, so a rendered cell cannot break the column structure. -/
theorem escapeChars_pipe_escaped (l : List Char) :
    ∀ i : ℕ, (escapeChars l)[i]? = some '|' →
      0 < i ∧ (escapeChars l)[i - 1]? = some '\\' := by
  induction l with
  | nil => intro i hi; simp [escapeChars] at hi
  | cons c cs ih =>
    intro i hi
    by_cases hc : c = '|'
    · subst hc
      rw [show escapeChars ('|' :: cs) = '\\' :: '|' :: escapeChars cs by
        simp [escapeChars]] at hi ⊢
      match i, hi with
      | 0, hi => simp at hi
      | 1, hi => exact ⟨Nat.zero_lt_one, rfl⟩
      | (k + 2), hi =>
        simp only [List.getElem?_cons_succ] at hi
        obtain ⟨hk, hprev⟩ := ih k hi
        refine ⟨by omega, ?_⟩
        have hidx : k + 2 - 1 = (k - 1) + 1 + 1 := by omega
        rw [hidx]
        simp only [List.getElem?_cons_succ]
        simpa using hprev
    · rw [show escapeChars (c :: cs) = c :: escapeChars cs by
        simp [escapeChars, hc]] at hi ⊢
      match i, hi with
      | 0, hi =>
        simp only [List.getElem?_cons_zero, Option.some.injEq] at hi
        exact absurd hi hc
      | (k + 1), hi =>
        simp only [List.getElem?_cons_succ] at hi
        obtain ⟨hk, hprev⟩ := ih k hi
        refine ⟨by omega, ?_⟩
        have hidx : k + 1 - 1 = (k - 1) + 1 := by omega
        rw [hidx]
        simpa using hprev

/-- Folding the relationship renderer over tables that all have an empty
foreign-key listing changes nothing. -/
theorem rel_foldl_empty (db : RelDb) (ts : List String) (acc : String × Bool)
    (h : ∀ t ∈ ts, fkQuery db t = []) :
    ts.foldl
      (fun acc t =>
        if (fkQuery db t).isEmpty then acc
        else (acc.1 ++ relSection t (fkQuery db t), true))
      acc = acc := by
  induction ts generalizing acc with
  | nil => rfl
  | cons t ts ih =>
    have ht : fkQuery db t = [] := h t (List.mem_cons_self t ts)
    have hrest : ∀ u ∈ ts, fkQuery db u = [] := fun u hu => h u (List.mem_cons_of_mem t hu)
    simp only [List.foldl_cons, ht, List.isEmpty_nil, if_true]
    exact ih acc hrest

/-! ## Claims -/

/-- Claim C1: for every input string whose whitespace-trimmed text does not
begin, case-insensitively, with `SELECT`, `query_data` returns the fixed
rejection message, acquires no pooled connection, and sends no statement to
the database. -/
theorem claim1_non_select_rejected_without_db_contact
    (db : Db) (sqlIn : String) (limit : Option Int)
    (h : pyStartsWith (pyLower (pyStrip sqlIn)) "select" = false) :
    query_data db sqlIn limit =
      { response := "错误: 只支持SELECT查询以保证数据库安全"
        executed := []
        poolAcquired := false } := by
  unfold query_data
  simp [h]

/-- Witness for claim C1 at the concrete input `" DROP TABLE x "`. -/
theorem claim1_witness :
    query_data dbC1 " DROP TABLE x " (some 100) =
      { response := "错误: 只支持SELECT查询以保证数据库安全"
        executed := []
        poolAcquired := false } :=
  claim1_non_select_rejected_without_db_contact dbC1 " DROP TABLE x " (some 100) (by decide)

/-- Claim C2: for a SELECT statement whose lowercased text does not contain
`limit`, the executed statement is the trimmed input with exactly one
` LIMIT n` appended; when the lowercased text contains `limit` anywhere, or
the caller passes no bound, the trimmed statement is executed unchanged. -/
theorem claim2_limit_appending :
    (∀ (db : Db) (sqlIn : String) (n : Int),
      pyStartsWith (pyLower (pyStrip sqlIn)) "select" = true →
      strContains (pyLower (pyStrip sqlIn)) "limit" = false →
      (query_data db sqlIn (some n)).executed = [pyStrip sqlIn ++ " LIMIT " ++ toString n]) ∧
    (∀ (db : Db) (sqlIn : String) (n : Int),
      pyStartsWith (pyLower (pyStrip sqlIn)) "select" = true →
      strContains (pyLower (pyStrip sqlIn)) "limit" = true →
      (query_data db sqlIn (some n)).executed = [pyStrip sqlIn]) ∧
    (∀ (db : Db) (sqlIn : String),
      pyStartsWith (pyLower (pyStrip sqlIn)) "select" = true →
      (query_data db sqlIn none).executed = [pyStrip sqlIn]) := by
  refine ⟨?_, ?_, ?_⟩
  · intro db sqlIn n h1 h2
    rw [query_data_executed db sqlIn (some n) h1]
    simp [normalizeSql, h2]
  · intro db sqlIn n h1 h2
    rw [query_data_executed db sqlIn (some n) h1]
    simp [normalizeSql, h2]
  · intro db sqlIn h1
    rw [query_data_executed db sqlIn none h1]
    rfl

/-- Witness for claim C2: the default bound is appended to a plain SELECT,
an explicit LIMIT suppresses appending, and a `None` bound leaves the
statement untouched. -/
theorem claim2_witness :
    (query_data dbC2 "  SELECT * FROM users  " (some 100)).executed =
      ["SELECT * FROM users LIMIT 100"] ∧
    (query_data dbC2 "SELECT * FROM t LIMIT 5" (some 100)).executed =
      ["SELECT * FROM t LIMIT 5"] ∧
    (query_data dbC2 "SELECT * FROM t" none).executed = ["SELECT * FROM t"] :=
  ⟨claim2_limit_appending.1 dbC2 "  SELECT * FROM users  " 100 (by decide) (by decide),
   claim2_limit_appending.2.1 dbC2 "SELECT * FROM t LIMIT 5" 100 (by decide) (by decide),
   claim2_limit_appending.2.2 dbC2 "SELECT * FROM t" (by decide)⟩

/-- Claim C3: for every table name not present in the database,
`get_table_schema` fails — the engine's missing-table error propagates out
of the operation unchanged (there is no handler) — and no partial result
text is produced. -/
theorem claim3_describe_missing_table_fails
    (db : SchemaDb) (t : String) (h : t ∉ db.tables) :
    ∃ e, db.describeTable t = Except.error e ∧ get_table_schema db t = Except.error e := by
  obtain ⟨e, he⟩ := db.describe_absent t h
  refine ⟨e, he, ?_⟩
  unfold get_table_schema
  rw [he]
  rfl

/-- Witness for claim C3 at the absent name `ghost`. -/
theorem claim3_witness :
    ∃ e, schemaDbC3.describeTable "ghost" = Except.error e ∧
      get_table_schema schemaDbC3 "ghost" = Except.error e :=
  claim3_describe_missing_table_fails schemaDbC3 "ghost" (by decide)

/-- Claim C4 (amended): within `table_statistics`, a numeric column's
reported mean and standard deviation are the database aggregate rounded to
two decimals only when that aggregate is non-null AND nonzero; both a NULL
aggregate and an exact-zero aggregate surface as the unavailable marker
`None`, because `round(float(x), 2) if x else None` tests Python
truthiness, under which `0` and `None` coincide. -/
theorem claim4_amended_zero_aggregate_unavailable
    (db : StatDb) (tbl matched name ctype : String) (n : ℕ)
    (mn mx av sd : Option ℚ)
    (hfind : db.tables.find? (fun t => sqlLike tbl t) = some matched)
    (hcount : db.count tbl = Except.ok n)
    (hdesc : db.describeTable tbl = Except.ok [(name, ctype)])
    (hnum : classifyColType ctype = ColCategory.numeric)
    (hagg : db.numAgg tbl name = Except.ok (mn, mx, av, sd)) :
    (table_statistics db tbl).1 =
      TSResult.ok n [ColStat.numeric name ctype mn mx (aggField av) (aggField sd)] ∧
    aggField none = none ∧
    aggField (some 0) = none ∧
    (∀ v : ℚ, v ≠ 0 → aggField (some v) = some (pyRound2 v)) := by
  refine ⟨?_, rfl, by simp [aggField], fun v hv => by simp [aggField, hv]⟩
  simp [table_statistics, hfind, hcount, hdesc, statsLoop, colStat, hnum, hagg]

/-- Counterexample to claim C4 as stated: in `statDbC4` the mean aggregate
of column `v` is `0` — non-null — yet `table_statistics` reports the
unavailable marker `none` for both mean and standard deviation instead of
the rounded value `0.0`. -/
theorem claim4_counterexample :
    statDbC4.numAgg "t" "v" = Except.ok (some 0, some 0, some 0, some 0) ∧
    (table_statistics statDbC4 "t").1 =
      TSResult.ok 1 [ColStat.numeric "v" "int(11)" (some 0) (some 0) none none] := by
  refine ⟨rfl, ?_⟩
  simp [table_statistics, sqlLike, likeMatch, statDbC4, statsLoop, colStat, classifyColType,
    numericTokens, textTokens, strContains, pyLower, containsAux, aggField]

/-- Witness for the amended claim C4 at `statDbC4`. -/
theorem claim4_witness :
    (table_statistics statDbC4 "t").1 =
      TSResult.ok 1
        [ColStat.numeric "v" "int(11)" (some 0) (some 0) (aggField (some 0)) (aggField (some 0))] ∧
    aggField none = none ∧
    aggField (some 0) = none ∧
    (∀ v : ℚ, v ≠ 0 → aggField (some v) = some (pyRound2 v)) :=
  claim4_amended_zero_aggregate_unavailable statDbC4 "t" "t" "v" "int(11)" 1
    (some 0) (some 0) (some 0) (some 0)
    (by simp [statDbC4, sqlLike, likeMatch]) rfl rfl (by decide) rfl

/-- Claim C5 (amended): for every caller string that no existing table's
name matches under SQL LIKE semantics, `table_statistics` returns the
not-found message determined by the catalog lookup alone, and the lookup is
the only statement sent to the database.  (For a nonexistent name whose
LIKE pattern does match some table the check passes instead — see the
counterexample and claim C9.) -/
theorem claim5_amended_notfound_when_no_like_match
    (db : StatDb) (tbl : String)
    (h : db.tables.find? (fun t => sqlLike tbl t) = none) :
    table_statistics db tbl =
      (TSResult.notFound ("错误: 表 '" ++ tbl ++ "' 不存在"), [Sql.showTablesLike tbl]) := by
  simp [table_statistics, h]

/-- Counterexample to claim C5 as stated: `ord_rs` is not the name of any
table in `statDbC5`, yet the LIKE-based existence check matches `orders`,
so the operation does not return the not-found message and a COUNT
statistics query is issued against the nonexistent table `ord_rs`,
failing with the engine's error. -/
theorem claim5_counterexample :
    ("ord_rs" ∉ statDbC5.tables) ∧
    table_statistics statDbC5 "ord_rs" =
      (TSResult.failure "获取统计信息错误: (1146, \"Table 'testdb.ord_rs' doesn't exist\")",
       [Sql.showTablesLike "ord_rs", Sql.countRows "ord_rs"]) := by
  refine ⟨by decide, ?_⟩
  simp [table_statistics, sqlLike, likeMatch, statDbC5]

/-- Witness for the amended claim C5 at the wildcard-free absent name
`ghost`. -/
theorem claim5_witness :
    table_statistics statDbC5 "ghost" =
      (TSResult.notFound "错误: 表 'ghost' 不存在", [Sql.showTablesLike "ghost"]) :=
  claim5_amended_notfound_when_no_like_match statDbC5 "ghost"
    (by simp [statDbC5, sqlLike, likeMatch])

/-- Claim C6: a driver error during `query_data` execution is caught and
returned as the error text (not raised), and if any single column's
statistic query inside `table_statistics` fails, the whole operation
returns the error text with no partial per-column results (the `failure`
outcome carries no statistics). -/
theorem claim6_errors_converted_to_text :
    (∀ (db : Db) (sqlIn : String) (limit : Option Int) (e : String),
      pyStartsWith (pyLower (pyStrip sqlIn)) "select" = true →
      db.exec (normalizeSql sqlIn limit) = Except.error e →
      query_data db sqlIn limit =
        { response := "查询执行错误: " ++ e
          executed := [normalizeSql sqlIn limit]
          poolAcquired := true }) ∧
    (∀ (db : StatDb) (tbl matched : String) (cols : List (String × String)) (n : ℕ)
       (c : String × String) (e : String),
      db.tables.find? (fun t => sqlLike tbl t) = some matched →
      db.count tbl = Except.ok n →
      db.describeTable tbl = Except.ok cols →
      c ∈ cols →
      (colStat db tbl c).1 = Except.error e →
      ∃ e', (table_statistics db tbl).1 = TSResult.failure ("获取统计信息错误: " ++ e')) := by
  constructor
  · intro db sqlIn limit e h he
    unfold query_data
    simp [h, he]
  · intro db tbl matched cols n c e hfind hcount hdesc hc he
    obtain ⟨e', qs, hloop⟩ := statsLoop_error db tbl cols c e hc he
    exact ⟨e', by simp [table_statistics, hfind, hcount, hdesc, hloop]⟩

/-- Witness for claim C6: a failing SELECT surfaces as error text, and one
failing column aggregate makes the whole statistics call fail. -/
theorem claim6_witness :
    query_data dbC6 "SELECT * FROM t LIMIT 5" (some 100) =
      { response := "查询执行错误: boom"
        executed := ["SELECT * FROM t LIMIT 5"]
        poolAcquired := true } ∧
    ∃ e', (table_statistics statDbC6 "t").1 = TSResult.failure ("获取统计信息错误: " ++ e') :=
  ⟨claim6_errors_converted_to_text.1 dbC6 "SELECT * FROM t LIMIT 5" (some 100) "boom"
      (by decide) rfl,
   claim6_errors_converted_to_text.2 statDbC6 "t" "t" [("v", "int")] 1 ("v", "int") "colboom"
      (by simp [statDbC6, sqlLike, likeMatch]) rfl rfl (by decide)
      (by simp [colStat, classifyColType, numericTokens, textTokens, strContains, pyLower,
        containsAux, statDbC6])⟩

/-- Claim C7: in the rendered result table, a SQL NULL cell renders as the
literal `NULL`; a mapping/sequence cell renders as its `json.dumps`
serialisation; other cells render via their default textual representation;
in each case every occurrence of the column delimiter `|` is escaped (every
`|` in the escaped text is preceded by a backslash); and a query returning
zero rows produces the fixed no-rows message instead of a table. -/
theorem claim7_render_rules :
    formatCell Cell.null = "NULL" ∧
    (∀ j, formatCell (Cell.structured j) = escapeDelim (jsonDumps j)) ∧
    (∀ s, formatCell (Cell.str s) = escapeDelim s) ∧
    (∀ n : Int, formatCell (Cell.int n) = escapeDelim (toString n)) ∧
    (∀ (s : String) (i : ℕ), (escapeDelim s).data[i]? = some '|' →
      0 < i ∧ (escapeDelim s).data[i - 1]? = some '\\') ∧
    (∀ (db : Db) (sqlIn : String) (limit : Option Int),
      pyStartsWith (pyLower (pyStrip sqlIn)) "select" = true →
      db.exec (normalizeSql sqlIn limit) = Except.ok [] →
      (query_data db sqlIn limit).response = "查询执行成功，但没有返回数据。") := by
  refine ⟨by decide, fun j => rfl, fun s => rfl, fun n => rfl, ?_, ?_⟩
  · intro s i hi
    exact escapeChars_pipe_escaped s.data i hi
  · intro db sqlIn limit h he
    unfold query_data
    simp [h, he]

/-- Witness for claim C7: the delimiter inside `a|b` is escaped in place,
and an empty result set yields the fixed no-rows message. -/
theorem claim7_witness :
    (0 < 2 ∧ (escapeDelim "a|b").data[2 - 1]? = some '\\') ∧
    (query_data dbC7 "SELECT * FROM empty" (some 100)).response =
      "查询执行成功，但没有返回数据。" :=
  ⟨claim7_render_rules.2.2.2.2.1 "a|b" 2 (by decide),
   claim7_render_rules.2.2.2.2.2 dbC7 "SELECT * FROM empty" (some 100) (by decide) rfl⟩

/-- Claim C8: every relationship row reported for a table comes from the
catalog filtered to foreign keys whose referenced schema equals the
configured database name and whose source table is that table (grouping by
source table); and a database with zero foreign-key edges yields the
explicit empty-relationships text — the operation returns normally. -/
theorem claim8_relationships :
    (∀ (db : RelDb) (t : String) (r : FKRow),
      r ∈ fkQuery db t → r.referencedTableSchema = db.dbName ∧ r.tableName = t) ∧
    (∀ db : RelDb,
      (∀ t ∈ db.tables, fkQuery db t = []) →
      get_relationships db = "# 数据库关系\n\n未找到表之间的关系。\n") := by
  constructor
  · intro db t r hr
    obtain ⟨-, hpred⟩ := List.mem_filter.mp hr
    simpa using hpred
  · intro db hall
    simp only [get_relationships]
    rw [rel_foldl_empty db db.tables _ hall]
    rfl

/-- Witness for claim C8: a genuine in-schema foreign key satisfies the
filter contract, and a catalog whose only constraint references a foreign
schema renders the empty-relationships text. -/
theorem claim8_witness :
    ((⟨"orders", "user_id", "fk_user", "testdb", "users", "id"⟩ : FKRow).referencedTableSchema =
        relDbC8.dbName ∧
      (⟨"orders", "user_id", "fk_user", "testdb", "users", "id"⟩ : FKRow).tableName = "orders") ∧
    get_relationships relDbC8empty = "# 数据库关系\n\n未找到表之间的关系。\n" :=
  ⟨claim8_relationships.1 relDbC8 "orders" ⟨"orders", "user_id", "fk_user", "testdb", "users", "id"⟩
      (by simp [fkQuery, relDbC8]),
   claim8_relationships.2 relDbC8empty (by intro t ht; simp [fkQuery, relDbC8empty])⟩

/-- Claim C9 (implicit): the existence check of `table_statistics` uses SQL
LIKE semantics, so the wildcard name `us%` — not itself a table — passes
the check because it matches the table `users`, and the subsequent COUNT
statistics query is issued against the literal caller-supplied string
`us%` (not the matched table), here failing with the engine's
missing-table error. -/
theorem claim9_like_wildcard_bypass :
    ("us%" ∉ statDbC9.tables) ∧
    strContains "us%" "%" = true ∧
    sqlLike "us%" "users" = true ∧
    table_statistics statDbC9 "us%" =
      (TSResult.failure "获取统计信息错误: (1146, \"Table 'testdb.us%' doesn't exist\")",
       [Sql.showTablesLike "us%", Sql.countRows "us%"]) := by
  refine ⟨by decide, by decide, by simp [sqlLike, likeMatch], ?_⟩
  simp [table_statistics, sqlLike, likeMatch, statDbC9]

/-- Claim C10 (implicit): column category is decided by substring tests in
a fixed order — numeric tokens first, then text tokens, then other — so any
type string containing a numeric token (even together with a text token,
and even accidentally, as `point` contains `int`) is classified numeric,
text tokens decide only when no numeric token occurs, and `other` is the
final fallback. -/
theorem claim10_classification_order :
    (∀ colType : String,
      numericTokens.any (fun tok => strContains (pyLower colType) tok) = true →
      classifyColType colType = ColCategory.numeric) ∧
    (∀ colType : String,
      numericTokens.any (fun tok => strContains (pyLower colType) tok) = true →
      textTokens.any (fun tok => strContains (pyLower colType) tok) = true →
      classifyColType colType = ColCategory.numeric) ∧
    (∀ colType : String,
      numericTokens.any (fun tok => strContains (pyLower colType) tok) = false →
      textTokens.any (fun tok => strContains (pyLower colType) tok) = true →
      classifyColType colType = ColCategory.text) ∧
    (∀ colType : String,
      numericTokens.any (fun tok => strContains (pyLower colType) tok) = false →
      textTokens.any (fun tok => strContains (pyLower colType) tok) = false →
      classifyColType colType = ColCategory.other) ∧
    classifyColType "point" = ColCategory.numeric := by
  refine ⟨?_, ?_, ?_, ?_, by decide⟩
  · intro colType h1
    simp [classifyColType, h1]
  · intro colType h1 h2
    simp [classifyColType, h1]
  · intro colType h1 h2
    simp [classifyColType, h1, h2]
  · intro colType h1 h2
    simp [classifyColType, h1, h2]

/-- Witness for claim C10: a type containing both `int` and `char` is
numeric, a text-only type is text, and `datetime` falls through to other. -/
theorem claim10_witness :
    classifyColType "int char" = ColCategory.numeric ∧
    classifyColType "VARCHAR(20)" = ColCategory.text ∧
    classifyColType "datetime" = ColCategory.other :=
  ⟨claim10_classification_order.1 "int char" (by decide),
   claim10_classification_order.2.2.1 "VARCHAR(20)" (by decide) (by decide),
   claim10_classification_order.2.2.2.1 "datetime" (by decide) (by decide)⟩

end MySQLMCP
